import Mathlib

/-!
Shallow embedding of the sensor-fusion / navigation core of the
Visual_Slam repository (files src/indoor-nav-pwa/odometry.js,
src/indoor-nav-pwa/navigation.js, src/integrated-app/js/odometry.js,
src/integrated-app/js/app.js), together with theorems settling the
specification claims about it.

JavaScript numbers are modelled as real numbers; the ambient clocks
(Date.now / performance.now) are passed as explicit arguments; DOM and
speech/vibration collaborators are modelled as emitted effect values.
-/

namespace VisualSlam

noncomputable section

/-! ## JavaScript numeric primitives -/

/-- Truncation toward zero, as used by the JavaScript remainder operator. -/
def jsTrunc (x : ℝ) : ℝ := if 0 ≤ x then (⌊x⌋ : ℝ) else (⌈x⌉ : ℝ)

/-- JavaScript remainder a % b: same sign as the dividend,
a - b * trunc(a / b). -/
def jsMod (a b : ℝ) : ℝ := a - b * jsTrunc (a / b)

/-- JavaScript Math.round: round half toward positive infinity. -/
def jsRound (x : ℝ) : ℤ := ⌊x + 1 / 2⌋

/-- JavaScript Math.atan2(y, x). -/
def jsAtan2 (y x : ℝ) : ℝ :=
  if 0 < x then Real.arctan (y / x)
  else if x < 0 then
    (if 0 ≤ y then Real.arctan (y / x) + Real.pi
     else Real.arctan (y / x) - Real.pi)
  else
    (if 0 < y then Real.pi / 2
     else if y < 0 then -(Real.pi / 2)
     else 0)

/-! ## GeometryUtils (src/indoor-nav-pwa/navigation.js, lines 8-43)

getAngleDiff normalizes with two sequential while loops; they are
embedded as two recursive functions applied in the source's order. -/

/-- The first while loop of getAngleDiff: while (diff > 180) diff -= 360. -/
def wrapDiffDown (d : ℝ) : ℝ :=
  if 180 < d then wrapDiffDown (d - 360) else d
termination_by (⌈d⌉).toNat
decreasing_by
  have h1 : (180 : ℤ) < ⌈d⌉ := Int.lt_ceil.mpr (by exact_mod_cast ‹180 < d›)
  have h2 : ⌈d - 360⌉ = ⌈d⌉ - 360 := by
    have := Int.ceil_sub_int d (360 : ℤ)
    push_cast at this
    exact_mod_cast this
  rw [h2]
  omega

/-- The second while loop of getAngleDiff: while (diff < -180) diff += 360. -/
def wrapDiffUp (d : ℝ) : ℝ :=
  if d < -180 then wrapDiffUp (d + 360) else d
termination_by (-⌊d⌋).toNat
decreasing_by
  have h1 : ⌊d⌋ < (-180 : ℤ) := Int.floor_lt.mpr (by exact_mod_cast ‹d < -180›)
  have h2 : ⌊d + 360⌋ = ⌊d⌋ + 360 := by
    have := Int.floor_add_int d (360 : ℤ)
    push_cast at this
    exact_mod_cast this
  rw [h2]
  omega

/-- GeometryUtils.getBearing: bearing from (x1, y1) to (x2, y2) in degrees,
atan2 with swapped arguments (compass convention), normalized by a single
conditional add of 360. -/
def getBearing (x1 y1 x2 y2 : ℝ) : ℝ :=
  let dx := x2 - x1
  let dy := y2 - y1
  let theta := jsAtan2 dx dy * (180 / Real.pi)
  if theta < 0 then theta + 360 else theta

/-- GeometryUtils.getAngleDiff: diff = targetBearing - currentHeading,
then the two normalization loops in source order. -/
def getAngleDiff (currentHeading targetBearing : ℝ) : ℝ :=
  wrapDiffUp (wrapDiffDown (targetBearing - currentHeading))

/-- GeometryUtils.getDistance: Euclidean norm. -/
def getDistance (x1 y1 x2 y2 : ℝ) : ℝ :=
  let dx := x2 - x1
  let dy := y2 - y1
  Real.sqrt (dx * dx + dy * dy)

/-! ## StepDetector (src/indoor-nav-pwa/odometry.js, lines 9-49) -/

/-- A 3-axis acceleration sample (accelerationIncludingGravity). -/
structure Vec3 where
  x : ℝ
  y : ℝ
  z : ℝ

/-- State of the StepDetector object: its constructor fields (with the
default option values used by the repository). -/
structure StepDetectorState where
  threshold : ℝ
  minStepInterval : ℝ
  lastStepTime : ℝ
  stepCount : ℕ
  isPeak : Bool
  alpha : ℝ
  gravity : ℝ
  lastAccel : Vec3

/-- The StepDetector constructor with default options. -/
def stepDetectorInit : StepDetectorState :=
  { threshold := 1.2, minStepInterval := 300, lastStepTime := 0,
    stepCount := 0, isPeak := false, alpha := 0.8, gravity := 9.81,
    lastAccel := ⟨0, 0, 0⟩ }

/-- The low-pass-filtered acceleration computed at the top of
StepDetector.update. -/
def filteredAccel (s : StepDetectorState) (accel : Vec3) : Vec3 :=
  ⟨s.alpha * s.lastAccel.x + (1 - s.alpha) * accel.x,
   s.alpha * s.lastAccel.y + (1 - s.alpha) * accel.y,
   s.alpha * s.lastAccel.z + (1 - s.alpha) * accel.z⟩

/-- The gravity-normalized magnitude of the filtered acceleration. -/
def filteredMag (s : StepDetectorState) (accel : Vec3) : ℝ :=
  let v := filteredAccel s accel
  Real.sqrt (v.x * v.x + v.y * v.y + v.z * v.z) / s.gravity

/-- StepDetector.update; the ambient performance.now() clock is the
explicit argument now. -/
def stepDetectorUpdate (s : StepDetectorState) (accel : Vec3) (now : ℝ) :
    StepDetectorState :=
  let v := filteredAccel s accel
  let magnitude := Real.sqrt (v.x * v.x + v.y * v.y + v.z * v.z) / s.gravity
  let s1 := { s with lastAccel := v }
  if s1.threshold < magnitude ∧ s1.minStepInterval < now - s1.lastStepTime then
    (if ¬ s1.isPeak then
      { s1 with isPeak := true, stepCount := s1.stepCount + 1,
                lastStepTime := now }
     else s1)
  else if magnitude < s1.threshold then { s1 with isPeak := false }
  else s1

/-- Folding stepDetectorUpdate over a list of (sample, clock) inputs. -/
def runDetector (s : StepDetectorState) : List (Vec3 × ℝ) → StepDetectorState
  | [] => s
  | (a, t) :: rest => runDetector (stepDetectorUpdate s a t) rest

/-- The filtered gravity-normalized magnitude stays strictly below the
threshold at every sample of the input trace. -/
def stepsBelow : StepDetectorState → List (Vec3 × ℝ) → Prop
  | _, [] => True
  | s, (a, t) :: rest =>
      filteredMag s a < s.threshold ∧ stepsBelow (stepDetectorUpdate s a t) rest

/-! ## HeadingEstimator (src/indoor-nav-pwa/odometry.js, lines 52-90) -/

/-- State of the HeadingEstimator object. -/
structure HeadingEstimatorState where
  heading : ℝ
  lastTime : ℝ
  isCalibrated : Bool
  bias : ℝ

/-- The HeadingEstimator constructor. -/
def headingEstimatorInit : HeadingEstimatorState :=
  { heading := 0, lastTime := 0, isCalibrated := false, bias := 0 }

/-- HeadingEstimator.update. The rotationRate.alpha field may be absent
(JavaScript alpha || 0), so it is an Option; the falsy test
if (!this.lastTime) is lastTime = 0. The source normalizes with the bare
JavaScript remainder this.heading % (2 * Math.PI). -/
def headingEstimatorUpdate (s : HeadingEstimatorState) (alpha : Option ℝ)
    (timestamp : ℝ) : HeadingEstimatorState :=
  if s.lastTime = 0 then { s with lastTime := timestamp }
  else
    let dt := (timestamp - s.lastTime) / 1000
    let rateRad := alpha.getD 0 * (Real.pi / 180)
    let h := s.heading + rateRad * dt
    { s with lastTime := timestamp, heading := jsMod h (2 * Real.pi) }

/-- HeadingEstimator.setAbsoluteHeading: overwrites heading with
degrees converted to radians, no wrapping, and marks calibrated. -/
def setAbsoluteHeading (s : HeadingEstimatorState) (degrees : ℝ) :
    HeadingEstimatorState :=
  { s with heading := degrees * (Real.pi / 180), isCalibrated := true }

/-! ## PositionTracker (src/indoor-nav-pwa/odometry.js, lines 155-207)

onStepDetected advances the position by stepLength along the heading
taken from the heading estimator; the visual-odometry gate in its body
is commented out in the source, so every detected step advances. -/

/-- Position state owned by PositionTracker (x, y); stepLength is the
constructor constant 0.7. -/
structure PositionTrackerState where
  x : ℝ
  y : ℝ
  headingEstimator : HeadingEstimatorState

/-- The PositionTracker constructor. -/
def positionTrackerInit : PositionTrackerState :=
  { x := 0, y := 0, headingEstimator := headingEstimatorInit }

/-- PositionTracker.onStepDetected: always advances by 0.7 m along the
current heading (the VO suppression in the source is commented out). -/
def onStepDetected (s : PositionTrackerState) : PositionTrackerState :=
  let theta := s.headingEstimator.heading
  { s with x := s.x + 0.7 * Real.sin theta,
           y := s.y + 0.7 * Real.cos theta }

/-! ## OdometryModule (src/integrated-app/js/odometry.js, lines 44-128) -/

/-- State of the OdometryModule object (integrated-app variant): pose,
step-detection filter state, gyro timestamp and the AI/fusion fields
isMoving and confidence set in the constructor. -/
structure OdometryState where
  x : ℝ
  y : ℝ
  heading : ℝ
  stepCount : ℕ
  stepThreshold : ℝ
  lastAccel : Vec3
  alpha : ℝ
  lastStepTime : ℝ
  lastGyroTime : ℝ
  isMoving : Bool
  confidence : ℝ

/-- The OdometryModule constructor (lines 44-62): note isMoving starts
false and confidence starts 1.0. -/
def odometryInit : OdometryState :=
  { x := 0, y := 0, heading := 0, stepCount := 0, stepThreshold := 1.2,
    lastAccel := ⟨0, 0, 0⟩, alpha := 0.8, lastStepTime := 0,
    lastGyroTime := 0, isMoving := false, confidence := 1.0 }

/-- OdometryModule.updateVisuals: isMoving becomes (flow > 5) where flow
is the mean frame difference from the visual-odometry collaborator. -/
def updateVisuals (s : OdometryState) (flow : ℝ) : OdometryState :=
  { s with isMoving := 5 < flow }

/-- OdometryModule.handleMotion. The devicemotion event fields
accelerationIncludingGravity and rotationRate may each be absent; inside
rotationRate, alpha may be absent (alpha || 0). Date.now() is the
explicit argument dateNow; the gyro timestamp is e.timeStamp || Date.now()
(falsy when absent or zero). The falsy test if (this.lastGyroTime) is
lastGyroTime not equal to 0. -/
def handleMotion (s : OdometryState) (acc : Option Vec3)
    (rot : Option (Option ℝ)) (timeStamp : Option ℝ) (dateNow : ℝ) :
    OdometryState :=
  let s1 :=
    match acc with
    | none => s
    | some a =>
      let x := s.alpha * s.lastAccel.x + (1 - s.alpha) * a.x
      let y := s.alpha * s.lastAccel.y + (1 - s.alpha) * a.y
      let z := s.alpha * s.lastAccel.z + (1 - s.alpha) * a.z
      let s' := { s with lastAccel := ⟨x, y, z⟩ }
      let mag := Real.sqrt (x * x + y * y + z * z) / 9.81
      if s'.stepThreshold < mag ∧ 400 < dateNow - s'.lastStepTime then
        (if s'.isMoving then
          { s' with stepCount := s'.stepCount + 1, lastStepTime := dateNow,
                    x := s'.x + 0.7 * Real.sin s'.heading,
                    y := s'.y + 0.7 * Real.cos s'.heading }
         else s')
      else s'
  match rot with
  | none => s1
  | some alpha =>
    let now := match timeStamp with
               | some t => if t = 0 then dateNow else t
               | none => dateNow
    if s1.lastGyroTime ≠ 0 then
      let dt := (now - s1.lastGyroTime) / 1000
      let rate := alpha.getD 0 * (Real.pi / 180)
      let h1 := s1.heading + rate * dt
      let h2 := jsMod h1 (2 * Real.pi)
      let h3 := if h2 < 0 then h2 + 2 * Real.pi else h2
      { s1 with heading := h3, lastGyroTime := now }
    else { s1 with lastGyroTime := now }

/-! ## NavigationModule (src/integrated-app/js/app.js, lines 313-375) -/

/-- The four navigation states. -/
inductive NavState where
  | IDLE
  | ROTATING
  | MOVING
  | ARRIVED
deriving DecidableEq

/-- A 2-D target point. -/
structure Target where
  x : ℝ
  y : ℝ

/-- A pose (x, y, heading in radians) as read from the odometry module. -/
structure Pose where
  x : ℝ
  y : ℝ
  heading : ℝ

/-- Threshold constants fixed in the NavigationModule constructor. -/
def navArrival : ℝ := 1.5

/-- Rotation deadband from the NavigationModule constructor. -/
def navRotation : ℝ := 20

/-- Move deadband from the NavigationModule constructor. -/
def navMove : ℝ := 10

/-- Mutable state of NavigationModule: target and FSM state. -/
structure NavModuleState where
  target : Option Target
  state : NavState

/-- The NavigationModule constructor. -/
def navModuleInit : NavModuleState := { target := none, state := .IDLE }

/-- The object returned by NavigationModule.update: the arrival branch
returns an object without the state key, so the state field is optional. -/
structure NavUpdateOut where
  instruction : Option String
  event : Option String
  dist : ℝ
  diff : ℝ
  stateOut : Option NavState

/-- NavigationModule.setTarget: store the target, force ROTATING, return
the one-time destination-set message. -/
def navModuleSetTarget (s : NavModuleState) (x y : ℝ) :
    NavModuleState × String :=
  ({ target := some ⟨x, y⟩, state := .ROTATING },
   "New destination set. Turn to face target.")

/-- The distance NavigationModule.update computes from the pose to the
target. -/
def navDist (p : Pose) (t : Target) : ℝ :=
  let dx := t.x - p.x
  let dy := t.y - p.y
  Real.sqrt (dx * dx + dy * dy)

/-- The bearing NavigationModule.update computes (degrees, single
conditional add of 360). -/
def navBearing (p : Pose) (t : Target) : ℝ :=
  let dx := t.x - p.x
  let dy := t.y - p.y
  let b := jsAtan2 dx dy * (180 / Real.pi)
  if b < 0 then b + 360 else b

/-- The angle difference NavigationModule.update computes: bearing minus
the heading converted to degrees, then the two normalization loops. -/
def navDiff (p : Pose) (t : Target) : ℝ :=
  wrapDiffUp (wrapDiffDown (navBearing p t - p.heading * (180 / Real.pi)))

/-- NavigationModule.update: returns none when no target is set,
otherwise the new state and the returned object. -/
def navModuleUpdate (s : NavModuleState) (userPos : Pose) :
    NavModuleState × Option NavUpdateOut :=
  match s.target with
  | none => (s, none)
  | some tgt =>
    let dist := navDist userPos tgt
    let diff := navDiff userPos tgt
    if dist < navArrival then
      (if s.state ≠ .ARRIVED then
        ({ s with state := .ARRIVED },
         some ⟨some "You have arrived.", some "arrived", dist, diff, none⟩)
       else (s, some ⟨none, none, dist, diff, none⟩))
    else if s.state = .ROTATING then
      (if |diff| < navMove then
        ({ s with state := .MOVING },
         some ⟨some "Walk forward.", some "straight", dist, diff,
               some .MOVING⟩)
       else (s, some ⟨none, none, dist, diff, some .ROTATING⟩))
    else if s.state = .MOVING then
      (if navRotation < |diff| then
        ({ s with state := .ROTATING },
         some ⟨some "Stop. Turn to correct heading.", some "stop", dist,
               diff, some .ROTATING⟩)
       else (s, some ⟨none, none, dist, diff, some .MOVING⟩))
    else (s, some ⟨none, none, dist, diff, some s.state⟩)

/-! ## Navigator (src/indoor-nav-pwa/navigation.js, lines 77-177)

The InstructionEngine collaborator (speech synthesis and vibration) is
modelled by recording the calls the Navigator makes to it as effect
values; its internal speech throttling is external plumbing. -/

/-- A call made to the InstructionEngine. -/
inductive NavEffect where
  | speak (text : String)
  | vibrate (pattern : List ℕ)

/-- Threshold constants fixed in the Navigator constructor. -/
def arrivalThreshold : ℝ := 1.5

/-- Deadband to start rotating again while MOVING. -/
def rotationThreshold : ℝ := 20

/-- Deadband to start moving while ROTATING. -/
def moveThreshold : ℝ := 10

/-- Mutable state of the Navigator object. -/
structure NavigatorState where
  state : NavState
  target : Option Target
  user : Pose
  lastInstruction : String

/-- The Navigator constructor. -/
def navigatorInit : NavigatorState :=
  { state := .IDLE, target := none, user := ⟨0, 0, 0⟩, lastInstruction := "" }

/-- Navigator.setTarget. -/
def navigatorSetTarget (s : NavigatorState) (x y : ℝ) :
    NavigatorState × List NavEffect :=
  ({ s with target := some ⟨x, y⟩, state := .ROTATING },
   [.speak "New destination set."])

/-- Navigator.giveRotationInstruction: spoken turn instruction with the
rounded magnitude, vibration only when the magnitude exceeds 45 degrees. -/
def giveRotationInstruction (angleDiff : ℝ) : List NavEffect :=
  let text :=
    if 0 < angleDiff then
      "Turn right " ++ toString (jsRound angleDiff) ++ " degrees."
    else
      "Turn left " ++ toString (jsRound |angleDiff|) ++ " degrees."
  let pattern : List ℕ := if 0 < angleDiff then [300] else [100, 50, 100]
  .speak text :: (if 45 < |angleDiff| then [.vibrate pattern] else [])

/-- Navigator.update: stores the user pose, then runs the state machine
when a target is set, emitting the InstructionEngine calls it makes. -/
def navigatorUpdate (s : NavigatorState) (userX userY userHeading : ℝ) :
    NavigatorState × List NavEffect :=
  let s0 := { s with user := ⟨userX, userY, userHeading⟩ }
  match s0.target with
  | none => (s0, [])
  | some tgt =>
    let dist := getDistance s0.user.x s0.user.y tgt.x tgt.y
    let bearing := getBearing s0.user.x s0.user.y tgt.x tgt.y
    let angleDiff := getAngleDiff s0.user.heading bearing
    match s0.state with
    | .IDLE => (s0, [])
    | .ARRIVED =>
      if arrivalThreshold * 2 < dist then
        ({ s0 with state := .ROTATING }, [])
      else (s0, [])
    | .ROTATING =>
      if |angleDiff| < moveThreshold then
        ({ s0 with state := .MOVING },
         [.speak "Walk forward.", .vibrate [50, 50, 50]])
      else (s0, giveRotationInstruction angleDiff)
    | .MOVING =>
      if dist < arrivalThreshold then
        ({ s0 with state := .ARRIVED },
         [.speak "You have arrived.", .vibrate [500, 100, 500]])
      else if rotationThreshold < |angleDiff| then
        ({ s0 with state := .ROTATING },
         [.speak "Stop. Turn to correct heading.", .vibrate [200]])
      else (s0, [])

/-! ## Operation sequences over the two state machines -/

/-- An externally driven call to a navigation state machine. -/
inductive NavOp where
  | upd (x y heading : ℝ)
  | setTgt (x y : ℝ)

/-- Run a sequence of calls on the pwa Navigator, keeping the state. -/
def runNavigator (s : NavigatorState) : List NavOp → NavigatorState
  | [] => s
  | .upd x y h :: rest => runNavigator (navigatorUpdate s x y h).1 rest
  | .setTgt x y :: rest => runNavigator (navigatorSetTarget s x y).1 rest

/-- Run a sequence of calls on the integrated-app NavigationModule. -/
def runNavModule (s : NavModuleState) : List NavOp → NavModuleState
  | [] => s
  | .upd x y h :: rest => runNavModule (navModuleUpdate s ⟨x, y, h⟩).1 rest
  | .setTgt x y :: rest => runNavModule (navModuleSetTarget s x y).1 rest

/-! ## Helper lemmas -/

/-- The first normalization loop never leaves a value above 180. -/
theorem wrapDiffDown_le (d : ℝ) : wrapDiffDown d ≤ 180 := by
  induction d using wrapDiffDown.induct with
  | case1 d h ih => rw [wrapDiffDown, if_pos h]; exact ih
  | case2 d h => rw [wrapDiffDown, if_neg h]; linarith [not_lt.mp h]

/-- The first normalization loop preserves a lower bound of -180. -/
theorem wrapDiffDown_ge (d : ℝ) (hd : -180 ≤ d) : -180 ≤ wrapDiffDown d := by
  induction d using wrapDiffDown.induct with
  | case1 d h ih => rw [wrapDiffDown, if_pos h]; exact ih (by linarith)
  | case2 d h => rw [wrapDiffDown, if_neg h]; exact hd

/-- The second normalization loop never leaves a value below -180. -/
theorem wrapDiffUp_ge (d : ℝ) : -180 ≤ wrapDiffUp d := by
  induction d using wrapDiffUp.induct with
  | case1 d h ih => rw [wrapDiffUp, if_pos h]; exact ih
  | case2 d h => rw [wrapDiffUp, if_neg h]; linarith [not_lt.mp h]

/-- The second normalization loop preserves an upper bound of 180. -/
theorem wrapDiffUp_le (d : ℝ) (hd : d ≤ 180) : wrapDiffUp d ≤ 180 := by
  induction d using wrapDiffUp.induct with
  | case1 d h ih => rw [wrapDiffUp, if_pos h]; exact ih (by linarith)
  | case2 d h => rw [wrapDiffUp, if_neg h]; exact hd

/-- A value already at most 180 is left unchanged by the first loop. -/
theorem wrapDiffDown_eq_self (d : ℝ) (hd : d ≤ 180) : wrapDiffDown d = d := by
  rw [wrapDiffDown, if_neg (not_lt.mpr hd)]

/-- A value already at least -180 is left unchanged by the second loop. -/
theorem wrapDiffUp_eq_self (d : ℝ) (hd : -180 ≤ d) : wrapDiffUp d = d := by
  rw [wrapDiffUp, if_neg (not_lt.mpr hd)]

/-- The angle difference of any value with itself is zero. -/
theorem getAngleDiff_self (x : ℝ) : getAngleDiff x x = 0 := by
  unfold getAngleDiff
  rw [sub_self, wrapDiffDown_eq_self 0 (by norm_num),
    wrapDiffUp_eq_self 0 (by norm_num)]

/-- The JavaScript remainder leaves a value of magnitude below the
positive modulus unchanged. -/
theorem jsMod_eq_self (a b : ℝ) (hb : 0 < b) (ha : |a| < b) :
    jsMod a b = a := by
  unfold jsMod jsTrunc
  rcases le_or_lt 0 a with h0 | h0
  · rw [if_pos (div_nonneg h0 hb.le)]
    have hfl : ⌊a / b⌋ = 0 := by
      rw [Int.floor_eq_zero_iff]
      constructor
      · exact div_nonneg h0 hb.le
      · rw [div_lt_one hb]
        calc a ≤ |a| := le_abs_self a
        _ < b := ha
    rw [hfl]
    push_cast
    ring
  · rw [if_neg (by
      simp only [not_le]
      exact div_neg_of_neg_of_pos h0 hb)]
    have hce : ⌈a / b⌉ = 0 := by
      rw [Int.ceil_eq_zero_iff, Set.mem_Ioc]
      constructor
      · rw [lt_div_iff₀ hb]
        have : -b < a := neg_lt_of_abs_lt ha
        linarith
      · exact div_nonpos_of_nonpos_of_nonneg h0.le hb.le
    rw [hce]
    push_cast
    ring

/-- A sub-threshold sample leaves the step count unchanged. -/
theorem stepCount_of_below (s : StepDetectorState) (a : Vec3) (t : ℝ)
    (h : filteredMag s a < s.threshold) :
    (stepDetectorUpdate s a t).stepCount = s.stepCount := by
  unfold stepDetectorUpdate
  have hmag : Real.sqrt ((filteredAccel s a).x * (filteredAccel s a).x +
      (filteredAccel s a).y * (filteredAccel s a).y +
      (filteredAccel s a).z * (filteredAccel s a).z) / s.gravity <
      s.threshold := h
  rw [if_neg (by
    intro hc
    exact absurd hc.1 (not_lt.mpr hmag.le))]
  split <;> rfl

/-- Over a whole trace of sub-threshold samples the step count never
changes. -/
theorem runDetector_stepCount (s : StepDetectorState)
    (ins : List (Vec3 × ℝ)) (h : stepsBelow s ins) :
    (runDetector s ins).stepCount = s.stepCount := by
  induction ins generalizing s with
  | nil => rfl
  | cons hd tl ih =>
    obtain ⟨a, t⟩ := hd
    obtain ⟨h1, h2⟩ := h
    rw [runDetector, ih _ h2, stepCount_of_below s a t h1]

/-- The invariant of interest for the pwa Navigator: a target is set and
the state is not IDLE. -/
def navigatorGood (s : NavigatorState) : Prop :=
  s.target ≠ none ∧ s.state ≠ .IDLE

/-- navigatorUpdate never changes the target. -/
theorem navigatorUpdate_target (s : NavigatorState) (x y hd : ℝ) :
    (navigatorUpdate s x y hd).1.target = s.target := by
  unfold navigatorUpdate
  rcases htgt : s.target with _ | tgt <;>
    rcases hst : s.state <;>
      simp [htgt, hst] <;> split_ifs <;> simp [htgt]

/-- navigatorUpdate never moves the machine into IDLE. -/
theorem navigatorUpdate_state (s : NavigatorState) (x y hd : ℝ)
    (h : s.state ≠ .IDLE) : (navigatorUpdate s x y hd).1.state ≠ .IDLE := by
  unfold navigatorUpdate
  rcases htgt : s.target with _ | tgt <;>
    rcases hst : s.state <;>
      simp [htgt, hst] <;> first
        | exact absurd hst h
        | (split_ifs <;> simp [hst])

/-- Any single Navigator call preserves the invariant. -/
theorem navigatorGood_step (s : NavigatorState) (op : NavOp)
    (h : navigatorGood s) :
    navigatorGood
      (match op with
       | .upd x y hd => (navigatorUpdate s x y hd).1
       | .setTgt x y => (navigatorSetTarget s x y).1) := by
  obtain ⟨ht, hs⟩ := h
  cases op with
  | setTgt x y =>
    exact ⟨by simp [navigatorSetTarget], by simp [navigatorSetTarget]⟩
  | upd x y hd =>
    exact ⟨by rw [navigatorUpdate_target]; exact ht,
           navigatorUpdate_state s x y hd hs⟩

/-- Running any call sequence preserves the Navigator invariant. -/
theorem runNavigator_good (s : NavigatorState) (ops : List NavOp)
    (h : navigatorGood s) : navigatorGood (runNavigator s ops) := by
  induction ops generalizing s with
  | nil => exact h
  | cons op tl ih =>
    cases op with
    | upd x y hd => exact ih _ (navigatorGood_step s (.upd x y hd) h)
    | setTgt x y => exact ih _ (navigatorGood_step s (.setTgt x y) h)

/-- The invariant of interest for the integrated-app NavigationModule. -/
def navModuleGood (s : NavModuleState) : Prop :=
  s.target ≠ none ∧ s.state ≠ .IDLE

/-- navModuleUpdate never clears the target. -/
theorem navModuleUpdate_target (s : NavModuleState) (p : Pose)
    (h : s.target ≠ none) : (navModuleUpdate s p).1.target ≠ none := by
  unfold navModuleUpdate
  rcases htgt : s.target with _ | tgt
  · exact absurd htgt h
  · simp only [htgt]
    split_ifs <;> simp [htgt]

/-- navModuleUpdate never moves the machine into IDLE. -/
theorem navModuleUpdate_state (s : NavModuleState) (p : Pose)
    (h : s.state ≠ .IDLE) : (navModuleUpdate s p).1.state ≠ .IDLE := by
  unfold navModuleUpdate
  rcases htgt : s.target with _ | tgt
  · simpa using h
  · simp only [htgt]
    split_ifs <;> simp_all

/-- Any single NavigationModule call preserves the invariant. -/
theorem navModuleGood_step (s : NavModuleState) (op : NavOp)
    (h : navModuleGood s) :
    navModuleGood
      (match op with
       | .upd x y hd => (navModuleUpdate s ⟨x, y, hd⟩).1
       | .setTgt x y => (navModuleSetTarget s x y).1) := by
  obtain ⟨ht, hs⟩ := h
  cases op with
  | setTgt x y =>
    exact ⟨by simp [navModuleSetTarget], by simp [navModuleSetTarget]⟩
  | upd x y hd =>
    exact ⟨navModuleUpdate_target s ⟨x, y, hd⟩ ht,
           navModuleUpdate_state s ⟨x, y, hd⟩ hs⟩

/-- Running any call sequence preserves the NavigationModule invariant. -/
theorem runNavModule_good (s : NavModuleState) (ops : List NavOp)
    (h : navModuleGood s) : navModuleGood (runNavModule s ops) := by
  induction ops generalizing s with
  | nil => exact h
  | cons op tl ih =>
    cases op with
    | upd x y hd => exact ih _ (navModuleGood_step s (.upd x y hd) h)
    | setTgt x y => exact ih _ (navModuleGood_step s (.setTgt x y) h)

/-! ## Claim theorems -/

/-- C4 counterexample: the claim says getAngleDiff always lies in the
half-open interval (-180, 180], but at heading 180 and bearing 0 the
code returns exactly -180, which is not greater than -180. -/
theorem c4_counterexample :
    getAngleDiff 180 0 = -180 ∧ ¬ (-180 < getAngleDiff 180 0) := by
  have h : getAngleDiff 180 0 = -180 := by
    unfold getAngleDiff
    norm_num
    rw [wrapDiffDown_eq_self (-180) (by norm_num),
      wrapDiffUp_eq_self (-180) (by norm_num)]
  exact ⟨h, by rw [h]; norm_num⟩

/-- C4 amended: for every pair of real inputs, getAngleDiff returns the
signed shortest turn normalized to the CLOSED interval [-180, 180]
(with -180 attainable), positive meaning turn right. -/
theorem c4_angleDiff_range (h b : ℝ) :
    -180 ≤ getAngleDiff h b ∧ getAngleDiff h b ≤ 180 := by
  unfold getAngleDiff
  exact ⟨wrapDiffUp_ge _, wrapDiffUp_le _ (wrapDiffDown_le _)⟩

/-- C9: for any two distinct points, the bearing from the first to the
second composed with getAngleDiff at heading equal to that bearing
yields exactly 0. -/
theorem c9_bearing_roundtrip (x1 y1 x2 y2 : ℝ)
    (h : ¬ (x1 = x2 ∧ y1 = y2)) :
    getAngleDiff (getBearing x1 y1 x2 y2) (getBearing x1 y1 x2 y2) = 0 :=
  getAngleDiff_self _

/-- Witness for C9 at the concrete points (0, 0) and (0, 5). -/
theorem c9_bearing_roundtrip_witness :
    ¬ ((0 : ℝ) = 0 ∧ (0 : ℝ) = 5) ∧
    getAngleDiff (getBearing 0 0 0 5) (getBearing 0 0 0 5) = 0 := by
  have h : ¬ ((0 : ℝ) = 0 ∧ (0 : ℝ) = 5) := by norm_num
  exact ⟨h, c9_bearing_roundtrip 0 0 0 5 h⟩

/-- C10: once setTarget has been called, every subsequent sequence of
update and setTarget calls leaves the target non-null and the state
different from IDLE, on both the pwa Navigator and the integrated-app
NavigationModule. -/
theorem c10_idle_unreachable :
    (∀ (s : NavigatorState) (x y : ℝ) (ops : List NavOp),
      (runNavigator (navigatorSetTarget s x y).1 ops).target ≠ none ∧
      (runNavigator (navigatorSetTarget s x y).1 ops).state ≠ .IDLE) ∧
    (∀ (m : NavModuleState) (x y : ℝ) (ops : List NavOp),
      (runNavModule (navModuleSetTarget m x y).1 ops).target ≠ none ∧
      (runNavModule (navModuleSetTarget m x y).1 ops).state ≠ .IDLE) := by
  constructor
  · intro s x y ops
    exact runNavigator_good _ ops
      ⟨by simp [navigatorSetTarget], by simp [navigatorSetTarget]⟩
  · intro m x y ops
    exact runNavModule_good _ ops
      ⟨by simp [navModuleSetTarget], by simp [navModuleSetTarget]⟩

/-- Witness for C10: a concrete run after setTarget on each machine. -/
theorem c10_idle_unreachable_witness :
    ((runNavigator (navigatorSetTarget navigatorInit 0 5).1
        [.upd 0 0 0, .upd 3 4 1]).target ≠ none ∧
     (runNavigator (navigatorSetTarget navigatorInit 0 5).1
        [.upd 0 0 0, .upd 3 4 1]).state ≠ .IDLE) ∧
    ((runNavModule (navModuleSetTarget navModuleInit 0 5).1
        [.upd 0 0 0, .setTgt 1 1]).target ≠ none ∧
     (runNavModule (navModuleSetTarget navModuleInit 0 5).1
        [.upd 0 0 0, .setTgt 1 1]).state ≠ .IDLE) :=
  ⟨c10_idle_unreachable.1 navigatorInit 0 5 [.upd 0 0 0, .upd 3 4 1],
   c10_idle_unreachable.2 navModuleInit 0 5 [.upd 0 0 0, .setTgt 1 1]⟩

/-- C5: from ARRIVED with a target set, an update whose pose lies more
than twice the arrival radius from the target moves the pwa Navigator
back to ROTATING. -/
theorem c5_arrived_hysteresis (s : NavigatorState) (tgt : Target)
    (x y hd : ℝ) (hst : s.state = .ARRIVED) (htg : s.target = some tgt)
    (hdist : arrivalThreshold * 2 < getDistance x y tgt.x tgt.y) :
    (navigatorUpdate s x y hd).1.state = .ROTATING := by
  unfold navigatorUpdate
  simp only [htg, hst]
  rw [if_pos hdist]

/-- Witness for C5: target at the origin, user at (3.5, 0), distance
3.5 which exceeds 2 times 1.5. -/
theorem c5_arrived_hysteresis_witness :
    arrivalThreshold * 2 < getDistance 3.5 0 0 0 ∧
    (navigatorUpdate ⟨.ARRIVED, some ⟨0, 0⟩, ⟨0, 0, 0⟩, ""⟩
      3.5 0 0).1.state = .ROTATING := by
  have hd : getDistance 3.5 0 0 0 = 3.5 := by
    show Real.sqrt ((0 - 3.5) * (0 - 3.5) + (0 - 0) * (0 - 0)) = 3.5
    rw [show ((0 : ℝ) - 3.5) * ((0 : ℝ) - 3.5) + ((0 : ℝ) - 0) * ((0 : ℝ) - 0)
        = 3.5 ^ 2 by norm_num,
      Real.sqrt_sq (by norm_num : (0 : ℝ) ≤ 3.5)]
  have hlt : arrivalThreshold * 2 < getDistance 3.5 0 0 0 := by
    rw [hd]; unfold arrivalThreshold; norm_num
  exact ⟨hlt, c5_arrived_hysteresis _ ⟨0, 0⟩ 3.5 0 0 rfl rfl hlt⟩

/-- C2: from any state other than ARRIVED, an update that sees the pose
within the arrival radius of the target transitions the integrated-app
NavigationModule to ARRIVED and returns the arrived instruction and
haptic event; an immediately following update with the same pose returns
no instruction and no event. -/
theorem c2_arrival_edge (s : NavModuleState) (tgt : Target) (p : Pose)
    (htg : s.target = some tgt) (hdist : navDist p tgt < navArrival)
    (hst : s.state ≠ .ARRIVED) :
    navModuleUpdate s p =
      ({ target := some tgt, state := .ARRIVED },
       some ⟨some "You have arrived.", some "arrived",
             navDist p tgt, navDiff p tgt, none⟩) ∧
    navModuleUpdate { target := some tgt, state := .ARRIVED } p =
      ({ target := some tgt, state := .ARRIVED },
       some ⟨none, none, navDist p tgt, navDiff p tgt, none⟩) := by
  constructor
  · unfold navModuleUpdate
    simp only [htg]
    rw [if_pos hdist, if_pos hst]
  · unfold navModuleUpdate
    simp only []
    rw [if_pos hdist, if_neg (by simp)]

/-- Witness for C2: target (1, 0), pose at the origin (distance 1 which
is below 1.5), prior state ROTATING. -/
theorem c2_arrival_edge_witness :
    navDist ⟨0, 0, 0⟩ ⟨1, 0⟩ < navArrival ∧
    (navModuleUpdate ⟨some ⟨1, 0⟩, .ROTATING⟩ ⟨0, 0, 0⟩).1.state =
      .ARRIVED ∧
    (navModuleUpdate
      (navModuleUpdate ⟨some ⟨1, 0⟩, .ROTATING⟩ ⟨0, 0, 0⟩).1
        ⟨0, 0, 0⟩).2 =
      some ⟨none, none, navDist ⟨0, 0, 0⟩ ⟨1, 0⟩,
            navDiff ⟨0, 0, 0⟩ ⟨1, 0⟩, none⟩ := by
  have hdist : navDist ⟨0, 0, 0⟩ ⟨1, 0⟩ < navArrival := by
    have : navDist ⟨0, 0, 0⟩ ⟨1, 0⟩ = 1 := by
      show Real.sqrt ((1 - 0) * (1 - 0) + (0 - 0) * (0 - 0)) = 1
      norm_num
    rw [this]; unfold navArrival; norm_num
  have h := c2_arrival_edge ⟨some ⟨1, 0⟩, .ROTATING⟩ ⟨1, 0⟩ ⟨0, 0, 0⟩
    rfl hdist (by simp)
  refine ⟨hdist, ?_, ?_⟩
  · rw [h.1]
  · rw [h.1, h.2]

/-- C7 counterexample: the claim says a non-positive dt contributes
zero, but a strictly negative dt (second timestamp earlier than the
first) is integrated as-is: with yaw rate 90 degrees per second and
dt = -1 s the stored heading moves from 0 to -(pi/2). -/
theorem c7_counterexample :
    (headingEstimatorUpdate
      (headingEstimatorUpdate headingEstimatorInit (some 90) 2000)
      (some 90) 1000).heading = -(Real.pi / 2) ∧
    -(Real.pi / 2) ≠ 0 := by
  have h1 : headingEstimatorUpdate headingEstimatorInit (some 90) 2000 =
      { headingEstimatorInit with lastTime := 2000 } := by
    unfold headingEstimatorUpdate headingEstimatorInit
    rw [if_pos rfl]
  constructor
  · rw [h1]
    unfold headingEstimatorUpdate
    rw [if_neg (by norm_num)]
    show jsMod (0 + (Option.getD (some 90) 0 * (Real.pi / 180)) *
      ((1000 - 2000) / 1000)) (2 * Real.pi) = -(Real.pi / 2)
    rw [show (0 : ℝ) + (Option.getD (some 90) 0 * (Real.pi / 180)) *
        ((1000 - 2000) / 1000) = -(Real.pi / 2) by
      simp only [Option.getD]; ring]
    exact jsMod_eq_self _ _ Real.two_pi_pos (by
      rw [abs_neg, abs_of_pos (by positivity)]
      linarith [Real.pi_pos])
  · have := Real.pi_pos
    intro hc
    nlinarith

/-- C7 amended: the first update call only records the timestamp and
leaves the rest of the state (in particular the heading) unchanged; a
subsequent call with dt equal to ZERO leaves the heading unchanged
whenever the stored heading has magnitude below 2 pi (a strictly
negative dt, by contrast, is integrated as-is, see the counterexample);
updates are total functions and never signal failure. -/
theorem c7_first_call_and_zero_dt :
    (∀ (s : HeadingEstimatorState) (alpha : Option ℝ) (t : ℝ),
      s.lastTime = 0 →
      headingEstimatorUpdate s alpha t = { s with lastTime := t }) ∧
    (∀ (s : HeadingEstimatorState) (alpha : Option ℝ),
      s.lastTime ≠ 0 → |s.heading| < 2 * Real.pi →
      (headingEstimatorUpdate s alpha s.lastTime).heading = s.heading) := by
  constructor
  · intro s alpha t h0
    unfold headingEstimatorUpdate
    rw [if_pos h0]
  · intro s alpha hne hb
    unfold headingEstimatorUpdate
    rw [if_neg hne]
    show jsMod (s.heading + (alpha.getD 0 * (Real.pi / 180)) *
      ((s.lastTime - s.lastTime) / 1000)) (2 * Real.pi) = s.heading
    rw [show s.heading + (alpha.getD 0 * (Real.pi / 180)) *
        ((s.lastTime - s.lastTime) / 1000) = s.heading by ring]
    exact jsMod_eq_self _ _ Real.two_pi_pos hb

/-- Witness for C7 amended: a first call at timestamp 1000 from the
fresh estimator, and a zero-dt call on a state with heading 1. -/
theorem c7_first_call_and_zero_dt_witness :
    headingEstimatorUpdate headingEstimatorInit (some 5) 1000 =
      { headingEstimatorInit with lastTime := 1000 } ∧
    ((1000 : ℝ) ≠ 0 ∧ |(1 : ℝ)| < 2 * Real.pi ∧
     (headingEstimatorUpdate ⟨1, 1000, false, 0⟩ none 1000).heading = 1) := by
  have hne : (1000 : ℝ) ≠ 0 := by norm_num
  have hb : |(1 : ℝ)| < 2 * Real.pi := by
    rw [abs_one]
    linarith [Real.pi_gt_three]
  exact ⟨c7_first_call_and_zero_dt.1 headingEstimatorInit (some 5) 1000 rfl,
    hne, hb, c7_first_call_and_zero_dt.2 ⟨1, 1000, false, 0⟩ none hne hb⟩

/-- C3: evaluation showing the pwa HeadingEstimator violates the
[0, 2 pi) heading invariant: integrating a yaw rate of -90 degrees per
second over one second stores heading -(pi/2), which is negative (the
bare JavaScript remainder keeps the sign of the dividend), and the
absolute-heading calibration call stores -90 degrees as -(pi/2) without
any wrapping. -/
theorem c3_heading_leaves_range :
    (headingEstimatorUpdate
      (headingEstimatorUpdate headingEstimatorInit (some (-90)) 1000)
      (some (-90)) 2000).heading = -(Real.pi / 2) ∧
    (setAbsoluteHeading headingEstimatorInit (-90)).heading =
      -(Real.pi / 2) ∧
    -(Real.pi / 2) < 0 := by
  have h1 : headingEstimatorUpdate headingEstimatorInit (some (-90)) 1000 =
      { headingEstimatorInit with lastTime := 1000 } := by
    unfold headingEstimatorUpdate headingEstimatorInit
    rw [if_pos rfl]
  refine ⟨?_, ?_, by linarith [Real.pi_pos]⟩
  · rw [h1]
    unfold headingEstimatorUpdate
    rw [if_neg (by norm_num)]
    show jsMod (0 + (Option.getD (some (-90)) 0 * (Real.pi / 180)) *
      ((2000 - 1000) / 1000)) (2 * Real.pi) = -(Real.pi / 2)
    rw [show (0 : ℝ) + (Option.getD (some (-90)) 0 * (Real.pi / 180)) *
        ((2000 - 1000) / 1000) = -(Real.pi / 2) by
      simp only [Option.getD]; ring]
    exact jsMod_eq_self _ _ Real.two_pi_pos (by
      rw [abs_neg, abs_of_pos (by positivity)]
      linarith [Real.pi_pos])
  · show (-90 : ℝ) * (Real.pi / 180) = -(Real.pi / 2)
    ring

/-- C1: evaluation showing the integrated-app confidence gate does NOT
default to always-confirm: from the fresh OdometryModule (updateVisuals
never called, so isMoving is still false), an accelerometer sample that
satisfies the step condition (filtered magnitude 20 / 9.81 which exceeds
the 1.2 threshold, and more than 400 ms since the last step) changes
nothing but the filter memory: stepCount stays 0 and the position stays
at the origin instead of advancing by the step length. -/
theorem c1_gate_blocks_inertial_steps :
    handleMotion odometryInit (some ⟨0, 0, 100⟩) none none 1000 =
      { odometryInit with lastAccel := ⟨0, 0, 20⟩ } ∧
    odometryInit.stepThreshold <
      Real.sqrt (0 * 0 + 0 * 0 + 20 * 20) / 9.81 ∧
    (400 : ℝ) < 1000 - odometryInit.lastStepTime := by
  have h400 : Real.sqrt (0 * 0 + 0 * 0 + 20 * 20) = 20 := by
    rw [show (0 : ℝ) * 0 + 0 * 0 + 20 * 20 = 20 ^ 2 by norm_num,
      Real.sqrt_sq (by norm_num : (0 : ℝ) ≤ 20)]
  refine ⟨?_, ?_, by unfold odometryInit; norm_num⟩
  · unfold handleMotion odometryInit
    norm_num [h400]
  · unfold odometryInit
    rw [h400]
    norm_num

/-- C8: from any prior NavigationModule state, setTarget(0, 5) yields
ROTATING and the one-time destination-set message; the very next update
from pose (0, 0) heading 0 computes distance 5, bearing 0, angleDiff 0
(below the 10-degree move deadband) and transitions to MOVING in that
single call, returning the walk-forward instruction with the straight
haptic event. -/
theorem c8_setTarget_then_moving (s : NavModuleState) :
    navModuleSetTarget s 0 5 =
      ({ target := some ⟨0, 5⟩, state := .ROTATING },
       "New destination set. Turn to face target.") ∧
    navModuleUpdate (navModuleSetTarget s 0 5).1 ⟨0, 0, 0⟩ =
      ({ target := some ⟨0, 5⟩, state := .MOVING },
       some ⟨some "Walk forward.", some "straight", 5, 0, some .MOVING⟩) := by
  have hdist : navDist ⟨0, 0, 0⟩ ⟨0, 5⟩ = 5 := by
    show Real.sqrt ((0 - 0) * (0 - 0) + (5 - 0) * (5 - 0)) = 5
    rw [show ((0 : ℝ) - 0) * ((0 : ℝ) - 0) + ((5 : ℝ) - 0) * ((5 : ℝ) - 0)
        = 5 ^ 2 by norm_num, Real.sqrt_sq (by norm_num : (0 : ℝ) ≤ 5)]
  have hbear : navBearing ⟨0, 0, 0⟩ ⟨0, 5⟩ = 0 := by
    have hA : jsAtan2 0 5 = 0 := by
      unfold jsAtan2
      norm_num [Real.arctan_zero]
    unfold navBearing
    norm_num [hA]
  have hdiff : navDiff ⟨0, 0, 0⟩ ⟨0, 5⟩ = 0 := by
    unfold navDiff
    rw [hbear, show (0 : ℝ) - 0 * (180 / Real.pi) = 0 by ring,
      wrapDiffDown_eq_self 0 (by norm_num),
      wrapDiffUp_eq_self 0 (by norm_num)]
  refine ⟨rfl, ?_⟩
  show navModuleUpdate { target := some ⟨0, 5⟩, state := .ROTATING }
      ⟨0, 0, 0⟩ = _
  unfold navModuleUpdate
  simp only [hdist, hdiff]
  rw [if_neg (by unfold navArrival; norm_num)]
  norm_num [navMove]

/-- C6: (a) over any input trace whose filtered gravity-normalized
magnitude stays below the 1.2 threshold, the step detector never fires;
(b) on the concrete trace z = 100 at t = 1000 (fires, magnitude 20/9.81),
z = 100 again at t = 1100 (elevated but latched and within refractory:
no fire), z = -100 at t = 1200 (magnitude 8.8/9.81 below threshold:
latch clears), z = 100 at t = 1250 (second excursion 250 ms after the
fired step, inside the 300 ms refractory window: no fire), exactly one
step fires in total, already after the first sample. -/
theorem c6_step_detector :
    (∀ (s : StepDetectorState) (ins : List (Vec3 × ℝ)),
      stepsBelow s ins → (runDetector s ins).stepCount = s.stepCount) ∧
    (runDetector stepDetectorInit [(⟨0, 0, 100⟩, 1000)]).stepCount = 1 ∧
    (runDetector stepDetectorInit
      [(⟨0, 0, 100⟩, 1000), (⟨0, 0, 100⟩, 1100),
       (⟨0, 0, -100⟩, 1200), (⟨0, 0, 100⟩, 1250)]).stepCount = 1 := by
  have q1 : Real.sqrt 400 = 20 := by
    rw [show (400 : ℝ) = 20 ^ 2 by norm_num,
      Real.sqrt_sq (by norm_num : (0 : ℝ) ≤ 20)]
  have q2 : Real.sqrt 1296 = 36 := by
    rw [show (1296 : ℝ) = 36 ^ 2 by norm_num,
      Real.sqrt_sq (by norm_num : (0 : ℝ) ≤ 36)]
  have q3a : Real.sqrt 1936 = 44 := by
    rw [show (1936 : ℝ) = 44 ^ 2 by norm_num,
      Real.sqrt_sq (by norm_num : (0 : ℝ) ≤ 44)]
  have q3b : Real.sqrt 25 = 5 := by
    rw [show (25 : ℝ) = 5 ^ 2 by norm_num,
      Real.sqrt_sq (by norm_num : (0 : ℝ) ≤ 5)]
  have q4a : Real.sqrt 456976 = 676 := by
    rw [show (456976 : ℝ) = 676 ^ 2 by norm_num,
      Real.sqrt_sq (by norm_num : (0 : ℝ) ≤ 676)]
  have q4b : Real.sqrt 625 = 25 := by
    rw [show (625 : ℝ) = 25 ^ 2 by norm_num,
      Real.sqrt_sq (by norm_num : (0 : ℝ) ≤ 25)]
  have e1 : stepDetectorUpdate stepDetectorInit ⟨0, 0, 100⟩ 1000 =
      ⟨1.2, 300, 1000, 1, true, 0.8, 9.81, ⟨0, 0, 20⟩⟩ := by
    unfold stepDetectorUpdate filteredAccel stepDetectorInit
    norm_num [q1]
  have e2 : stepDetectorUpdate
      ⟨1.2, 300, 1000, 1, true, 0.8, 9.81, ⟨0, 0, 20⟩⟩ ⟨0, 0, 100⟩ 1100 =
      ⟨1.2, 300, 1000, 1, true, 0.8, 9.81, ⟨0, 0, 36⟩⟩ := by
    unfold stepDetectorUpdate filteredAccel
    norm_num [q2]
  have e3 : stepDetectorUpdate
      ⟨1.2, 300, 1000, 1, true, 0.8, 9.81, ⟨0, 0, 36⟩⟩ ⟨0, 0, -100⟩ 1200 =
      ⟨1.2, 300, 1000, 1, false, 0.8, 9.81, ⟨0, 0, 8.8⟩⟩ := by
    unfold stepDetectorUpdate filteredAccel
    norm_num [q3a, q3b]
  have e4 : stepDetectorUpdate
      ⟨1.2, 300, 1000, 1, false, 0.8, 9.81, ⟨0, 0, 8.8⟩⟩ ⟨0, 0, 100⟩ 1250 =
      ⟨1.2, 300, 1000, 1, false, 0.8, 9.81, ⟨0, 0, 27.04⟩⟩ := by
    unfold stepDetectorUpdate filteredAccel
    norm_num [q4a, q4b]
  refine ⟨runDetector_stepCount, ?_, ?_⟩
  · rw [runDetector, e1]
    rfl
  · rw [runDetector, e1, runDetector, e2, runDetector, e3, runDetector, e4]
    rfl

/-- Witness for C6: the all-quiet trace of two zero samples keeps the
filtered magnitude at 0, below threshold, and the count stays 0. -/
theorem c6_step_detector_witness :
    stepsBelow stepDetectorInit [(⟨0, 0, 0⟩, 100), (⟨0, 0, 0⟩, 200)] ∧
    (runDetector stepDetectorInit
      [(⟨0, 0, 0⟩, 100), (⟨0, 0, 0⟩, 200)]).stepCount =
      stepDetectorInit.stepCount := by
  have hb : stepsBelow stepDetectorInit [(⟨0, 0, 0⟩, 100), (⟨0, 0, 0⟩, 200)] := by
    norm_num [stepsBelow, filteredMag, filteredAccel, stepDetectorUpdate,
      stepDetectorInit, Real.sqrt_zero]
  exact ⟨hb, c6_step_detector.1 stepDetectorInit _ hb⟩

end

end VisualSlam
